import Mathlib

/-!
Shallow embedding of the license-activation bot in `src/app.py`.

The bot exposes three slash-command handlers (`activate_key`, `reset_hwid`,
`reset_hwid_with_key`) plus a module-level startup sequence.  Each handler is
a straight-line function of the outcomes of its external calls (the KeyAuth
licensing API and the Discord role operations), so we model an invocation as
a pure function from an environment record -- which fixes what each external
call would do -- to the pair of (observable outcome, list of external calls
performed).  Python dictionaries returned by the licensing API are modelled
by records of optional fields together with an `otherKeys` flag so that
Python dict truthiness (non-emptiness) is represented faithfully.  Python
exceptions raised by external calls are modelled with `Except`; the
`discord.errors.Forbidden` subclass gets its own constructor in the grant
outcome because the source handles it by a dedicated `except` clause.
Messaging primitives (`defer`, `followup.send`) are assumed not to raise:
they are the response channel itself, and none of the claims is about them.
-/

namespace KeyauthBot

deriving instance DecidableEq for Except

/-- Python exception value, as observed by the handler code: `KeyError k`
prints as the quoted key (so `str(KeyError("info"))` is `\x27info\x27`),
any other exception prints as its message text. -/
inductive Exn where
  | keyError (k : String)
  | other (text : String)
  deriving DecidableEq, Repr

/-- The text produced by interpolating the exception into an f-string. -/
def Exn.text : Exn → String
  | .keyError k => "\x27" ++ k ++ "\x27"
  | .other t => t

/-- The `info` sub-dictionary of a KeyAuth license response.  `username = none`
means the key is absent; `some s` means present with value `s`.  `otherKeys`
records whether the dictionary holds any further keys (for truthiness). -/
structure UserInfoDict where
  username : Option String
  otherKeys : Bool
  deriving DecidableEq, Repr

/-- A KeyAuth `license(key)` response dictionary.  Each field is `none` when
the corresponding dict key is absent; `success` stores the truthiness of the
stored value. -/
structure KeyDict where
  success : Option Bool
  message : Option String
  info : Option UserInfoDict
  otherKeys : Bool
  deriving DecidableEq, Repr

/-- Python truthiness of the response dictionary: a dict is truthy iff
non-empty. -/
def KeyDict.truthy (k : KeyDict) : Bool :=
  k.success.isSome || k.message.isSome || k.info.isSome || k.otherKeys

/-- Truthiness of `key_info.get("success")`: absent key gives `None` (falsy). -/
def KeyDict.successTruthy (k : KeyDict) : Bool :=
  k.success.getD false

/-- A KeyAuth `hwid(username)` reset-response dictionary. -/
structure ResetDict where
  success : Option Bool
  message : Option String
  otherKeys : Bool
  deriving DecidableEq, Repr

/-- Python truthiness of the reset-response dictionary. -/
def ResetDict.truthy (d : ResetDict) : Bool :=
  d.success.isSome || d.message.isSome || d.otherKeys

/-- Truthiness of `reset_response.get("success")`. -/
def ResetDict.successTruthy (d : ResetDict) : Bool :=
  d.success.getD false

/-- A Discord role object: the id it is looked up by and its display name. -/
structure Role where
  id : Int
  name : String
  deriving DecidableEq, Repr

/-- Outcome of `interaction.user.add_roles(role)`: success, the dedicated
`discord.errors.Forbidden` exception, or any other exception. -/
inductive GrantOutcome where
  | ok
  | forbidden
  | raised (e : Exn)
  deriving DecidableEq, Repr

/-- External calls a handler can perform, in order.  `send`/`defer` are not
recorded: the claims quantify over licensing-API calls and role grants. -/
inductive Call where
  | license (key : String)
  | addRoles (role : Role)
  | setvar (username varname value : String)
  | hwid (username : String)
  deriving DecidableEq, Repr

/-- The externally observable end of one handler invocation: either the text
of the single `followup.send` the handler performed, or an exception that
escaped the handler body uncaught. -/
inductive Outcome where
  | reply (msg : String)
  | uncaught (e : Exn)
  deriving DecidableEq, Repr

/-- `Outcome.isReply o` holds when the handler produced a user-visible text
response rather than letting an exception escape. -/
def Outcome.isReply : Outcome → Bool
  | .reply _ => true
  | .uncaught _ => false

/-! Message texts, verbatim from `src/app.py` (apostrophes written `\x27`). -/

/-- Sent by `activate` when the configured role is not found in the guild. -/
def roleNotFoundMsg : String :=
  "Error: The configured role could not be found on this server. Please contact an admin."

/-- Sent by `activate` when `add_roles` raises `Forbidden`. -/
def permissionMsg : String :=
  "Error: I don\x27t have permission to assign roles. Make sure my role is higher than the one I\x27m trying to assign."

/-- Sent by `activate` when any other exception is raised in the grant block. -/
def unexpectedMsg (t : String) : String :=
  "An unexpected error occurred: " ++ t

/-- Sent by `activate` on a successful grant, naming the granted role. -/
def activateSuccessMsg (roleName : String) : String :=
  "✅ Success! Your key has been activated and you\x27ve been given the `" ++ roleName ++ "` role."

/-- Sent by `activate` when key validation does not succeed. -/
def activationFailedMsg (m : String) : String :=
  "❌ Activation failed: `" ++ m ++ "`"

/-- The fallback used when the licensing API gave no response object. -/
def failedToConnectMsg : String :=
  "Failed to connect to KeyAuth API."

/-- Sent by `reset_hwid` when the invoking user lacks the configured role. -/
def activateFirstMsg : String :=
  "You must activate a key first using `/activate` before you can reset your HWID."

/-- Sent by `reset_hwid` when the invoking user does hold the role. -/
def deflectMsg : String :=
  "To reset your HWID, please use the `/reset_hwid_with_key` command and provide your key."

/-- Sent by `reset_hwid_with_key` when key validation does not succeed. -/
def invalidKeyMsg : String :=
  "❌ The provided key is not valid."

/-- Sent by `reset_hwid_with_key` when no username is extractable. -/
def cannotRetrieveMsg : String :=
  "Could not retrieve user information from this key."

/-- Sent by `reset_hwid_with_key` on a successful reset. -/
def hwidSuccessMsg : String :=
  "✅ Your HWID has been successfully reset."

/-- Sent by `reset_hwid_with_key` on a failed reset, with the API message. -/
def hwidFailedMsg (m : String) : String :=
  "❌ Failed to reset HWID: `" ++ m ++ "`"

/-- The Python `AttributeError` text for `None.get(...)`. -/
def noneGetAttrErr : String :=
  "\x27NoneType\x27 object has no attribute \x27get\x27"

/-- The double indexing `key_info["info"]["username"]` performed inside the
try-block of `activate`: raises `KeyError` when either key is absent. -/
def indexUsername (k : KeyDict) : Except Exn String :=
  match k.info with
  | none => .error (.keyError "info")
  | some i =>
    match i.username with
    | none => .error (.keyError "username")
    | some u => .ok u

/-- Environment of one `activate` invocation: what each external call would
do.  `licenseResult`: what `keyauthapp.license(key)` does (raise, or return
`None` or a dict).  `roleLookup`: what `guild.get_role(DISCORD_ROLE_ID)`
returns.  `grant`: what `interaction.user.add_roles(role)` does.
`setvarResult`: what `keyauthapp.setvar(...)` does (its returned value is a
truthiness we never inspect).  `userId`: `interaction.user.id`. -/
structure ActivateEnv where
  licenseResult : Except Exn (Option KeyDict)
  roleLookup : Option Role
  grant : GrantOutcome
  setvarResult : Except Exn Bool
  userId : Int
  deriving DecidableEq, Repr

/-- The `/activate` handler (`activate_key` in `src/app.py`, lines 57-94),
as a function of its environment and the `key` argument. -/
def activate_key (env : ActivateEnv) (key : String) : Outcome × List Call :=
  match env.licenseResult with
  | .error e => (.uncaught e, [Call.license key])
  | .ok keyInfo =>
    match keyInfo with
    | some k =>
      if k.truthy && k.successTruthy then
        match env.roleLookup with
        | none => (.reply roleNotFoundMsg, [Call.license key])
        | some role =>
          match env.grant with
          | .forbidden => (.reply permissionMsg, [Call.license key, Call.addRoles role])
          | .raised e => (.reply (unexpectedMsg e.text), [Call.license key, Call.addRoles role])
          | .ok =>
            match indexUsername k with
            | .error e => (.reply (unexpectedMsg e.text), [Call.license key, Call.addRoles role])
            | .ok uname =>
              match env.setvarResult with
              | .error e =>
                (.reply (unexpectedMsg e.text),
                  [Call.license key, Call.addRoles role,
                    Call.setvar uname "discordid" (toString env.userId)])
              | .ok _ =>
                (.reply (activateSuccessMsg role.name),
                  [Call.license key, Call.addRoles role,
                    Call.setvar uname "discordid" (toString env.userId)])
      else
        (.reply (activationFailedMsg
            (if k.truthy then k.message.getD "Unknown error" else failedToConnectMsg)),
          [Call.license key])
    | none => (.reply (activationFailedMsg failedToConnectMsg), [Call.license key])

/-- Environment of one `reset_hwid` invocation: the role lookup result and
the list of role objects the invoking user holds (Discord role lists contain
role objects, never `None`, so a failed lookup is never a member). -/
structure ResetHwidEnv where
  roleLookup : Option Role
  userRoles : List Role
  deriving DecidableEq, Repr

/-- The `/reset_hwid` handler (`reset_hwid` in `src/app.py`, lines 98-148).
The body after the role check is comments only, ending in a single deflecting
message; no licensing-API call is made on any path. -/
def reset_hwid (env : ResetHwidEnv) : Outcome × List Call :=
  let roleHeld : Bool :=
    match env.roleLookup with
    | none => false
    | some r => decide (r ∈ env.userRoles)
  if roleHeld then (.reply deflectMsg, []) else (.reply activateFirstMsg, [])

/-- Environment of one `reset_hwid_with_key` invocation. -/
structure ResetWithKeyEnv where
  licenseResult : Except Exn (Option KeyDict)
  hwidResult : Except Exn (Option ResetDict)
  deriving DecidableEq, Repr

/-- The `/reset_hwid_with_key` handler (`reset_hwid_with_key` in
`src/app.py`, lines 152-177).  Note the source guards `reset_response and
reset_response.get("success")` but then evaluates
`reset_response.get("message", "Unknown error")` in the else branch, so a
`None` reset response raises `AttributeError` there. -/
def reset_hwid_with_key (env : ResetWithKeyEnv) (key : String) : Outcome × List Call :=
  match env.licenseResult with
  | .error e => (.uncaught e, [Call.license key])
  | .ok keyInfo =>
    match keyInfo with
    | none => (.reply invalidKeyMsg, [Call.license key])
    | some k =>
      if k.truthy && k.successTruthy then
        match (k.info.getD ⟨none, false⟩).username with
        | none => (.reply cannotRetrieveMsg, [Call.license key])
        | some u =>
          if u = "" then (.reply cannotRetrieveMsg, [Call.license key])
          else
            match env.hwidResult with
            | .error e => (.uncaught e, [Call.license key, Call.hwid u])
            | .ok none => (.uncaught (.other noneGetAttrErr), [Call.license key, Call.hwid u])
            | .ok (some d) =>
              if d.truthy && d.successTruthy then
                (.reply hwidSuccessMsg, [Call.license key, Call.hwid u])
              else
                (.reply (hwidFailedMsg (d.message.getD "Unknown error")),
                  [Call.license key, Call.hwid u])
      else (.reply invalidKeyMsg, [Call.license key])

/-- Environment for module startup: the four environment variables as read
by `os.getenv` (`none` when unset), and whether the KeyAuth `api(...)`
constructor succeeds. -/
structure StartupEnv where
  botToken : Option String
  ownerId : Option String
  appName : Option String
  roleIdRaw : Option String
  keyauthInitOk : Bool
  deriving DecidableEq, Repr

/-- How the startup sequence of `src/app.py` (lines 11-34 and 181-182) ends:
an uncaught exception while converting `DISCORD_ROLE_ID`, the explicit
missing-configuration `exit()`, the KeyAuth-init `exit()`, or reaching
`client.run` with the parsed configuration. -/
inductive StartupResult where
  | crashed (e : String)
  | exitedMissingConfig
  | exitedInitFailure
  | running (token ownerId appName : String) (roleId : Int)
  deriving DecidableEq, Repr

/-- Accumulating decimal parser over a character list: `none` when a
non-digit appears. -/
def digitsValAux : List Char → Nat → Option Nat
  | [], acc => some acc
  | c :: cs, acc =>
    if c.isDigit then digitsValAux cs (acc * 10 + (c.toNat - 48)) else none

/-- Python `int(s)` on a string, approximated by decimal integer parsing
with an optional leading minus sign; the claims only distinguish an unset
variable from a normal numeric id. -/
def pyInt? (s : String) : Option Int :=
  match s.data with
  | [] => none
  | '-' :: c :: cs => (digitsValAux (c :: cs) 0).map (fun n => -(n : Int))
  | cs => (digitsValAux cs 0).map (fun n => (n : Int))

/-- Python truthiness of an `os.getenv` result: `None` and `""` are falsy. -/
def strTruthy : Option String → Bool
  | none => false
  | some s => decide (s ≠ "")

/-- The Python `TypeError` text for `int(None)`. -/
def intNoneTypeErr : String :=
  "int() argument must be a string, a bytes-like object or a real number, not \x27NoneType\x27"

/-- Module startup: `int(os.getenv("DISCORD_ROLE_ID"))` runs first (line 14),
so a missing role id raises `TypeError` before the explicit
missing-configuration check (lines 18-21) is reached; then the `all([...])`
truthiness check, then the guarded KeyAuth init, then `client.run`. -/
def startup (env : StartupEnv) : StartupResult :=
  match env.roleIdRaw with
  | none => .crashed intNoneTypeErr
  | some s =>
    match pyInt? s with
    | none => .crashed ("invalid literal for int() with base 10: \x27" ++ s ++ "\x27")
    | some roleId =>
      if strTruthy env.botToken && strTruthy env.ownerId && strTruthy env.appName
          && decide (roleId ≠ 0) then
        if env.keyauthInitOk then
          .running (env.botToken.getD "") (env.ownerId.getD "") (env.appName.getD "") roleId
        else .exitedInitFailure
      else .exitedMissingConfig

/-! Theorems about the claims. -/

/-- C2: when the licensing API reports the key invalid or unsuccessful, the
`activate` handler never attempts a role grant and embeds the reported error
message verbatim in its response; when the API call returned no response
object at all, it responds with the generic failed-to-connect message
instead, again without attempting a grant. -/
theorem activate_invalid_key_response (env : ActivateEnv) (key : String) :
    (∀ k m, env.licenseResult = .ok (some k) → k.successTruthy = false →
      k.message = some m →
      (activate_key env key).1 = .reply (activationFailedMsg m) ∧
      ∀ r, Call.addRoles r ∉ (activate_key env key).2) ∧
    (env.licenseResult = .ok none →
      (activate_key env key).1 = .reply (activationFailedMsg failedToConnectMsg) ∧
      ∀ r, Call.addRoles r ∉ (activate_key env key).2) := by
  obtain ⟨lr, rl, g, sv, uid⟩ := env
  constructor
  · rintro k m rfl hs hm
    have ht : k.truthy = true := by simp [KeyDict.truthy, hm]
    refine ⟨by simp [activate_key, hs, ht, hm], fun r => ?_⟩
    simp [activate_key, hs, ht, hm]
  · rintro rfl
    exact ⟨by simp [activate_key], fun r => by simp [activate_key]⟩

/-- Witness for C2 at concrete inputs: a present error message is embedded
verbatim, and a `None` response yields the failed-to-connect message. -/
theorem activate_invalid_key_response_witness :
    (activate_key ⟨.ok (some ⟨some false, some "Key not found", none, false⟩),
        none, .ok, .ok true, 0⟩ "K1").1
      = .reply (activationFailedMsg "Key not found") ∧
    (activate_key ⟨.ok none, none, .ok, .ok true, 0⟩ "K1").1
      = .reply (activationFailedMsg failedToConnectMsg) :=
  ⟨((activate_invalid_key_response
      ⟨.ok (some ⟨some false, some "Key not found", none, false⟩),
        none, .ok, .ok true, 0⟩ "K1").1
      ⟨some false, some "Key not found", none, false⟩ "Key not found"
      rfl rfl rfl).1,
   ((activate_invalid_key_response ⟨.ok none, none, .ok, .ok true, 0⟩ "K1").2 rfl).1⟩

/-- C4: evaluation of `reset_hwid_with_key` at a validated key and
extractable username.  When the reset call returns `None`, the handler does
not reply "Unknown error" as the claim states: the guarded truthiness test
falls through to `reset_response.get("message", "Unknown error")`, which
raises an uncaught `AttributeError` on `None`.  When the reset call returns
a dictionary, the handler does call reset exactly once and surfaces the
success or failure message unchanged. -/
theorem reset_with_key_none_reset_crash :
    reset_hwid_with_key
        ⟨.ok (some ⟨some true, none, some ⟨some "alice", false⟩, false⟩), .ok none⟩ "KEY-1"
      = (.uncaught (.other noneGetAttrErr), [Call.license "KEY-1", Call.hwid "alice"]) ∧
    reset_hwid_with_key
        ⟨.ok (some ⟨some true, none, some ⟨some "alice", false⟩, false⟩),
          .ok (some ⟨some true, none, false⟩)⟩ "KEY-1"
      = (.reply hwidSuccessMsg, [Call.license "KEY-1", Call.hwid "alice"]) ∧
    reset_hwid_with_key
        ⟨.ok (some ⟨some true, none, some ⟨some "alice", false⟩, false⟩),
          .ok (some ⟨some false, some "HWID reset limit reached", false⟩)⟩ "KEY-1"
      = (.reply (hwidFailedMsg "HWID reset limit reached"),
          [Call.license "KEY-1", Call.hwid "alice"]) ∧
    reset_hwid_with_key
        ⟨.ok (some ⟨some true, none, some ⟨some "alice", false⟩, false⟩),
          .ok (some ⟨some false, none, false⟩)⟩ "KEY-1"
      = (.reply (hwidFailedMsg "Unknown error"), [Call.license "KEY-1", Call.hwid "alice"]) := by
  decide

/-- C5: evaluation of the startup sequence.  With only the role id missing,
the process does not reach the explicit missing-configuration check: the
`int(os.getenv("DISCORD_ROLE_ID"))` conversion on line 14 raises `TypeError`
first.  With the bot token missing (and a parsable role id), the explicit
check does exit; with everything present, startup reaches `client.run`. -/
theorem startup_missing_role_id_crash :
    startup ⟨some "token", some "owner", some "app", none, true⟩
      = .crashed intNoneTypeErr ∧
    startup ⟨some "token", some "owner", some "app", none, true⟩
      ≠ .exitedMissingConfig ∧
    startup ⟨none, some "owner", some "app", some "123", true⟩
      = .exitedMissingConfig ∧
    startup ⟨some "token", some "owner", some "app", some "123", true⟩
      = .running "token" "owner" "app" 123 := by
  decide

/-- C6: when the licensing API reports the key valid but the configured role
id does not resolve in the guild, `activate` replies with the
configuration-error message and never attempts a role grant. -/
theorem activate_missing_role_config_error (env : ActivateEnv) (key : String)
    (k : KeyDict) (hl : env.licenseResult = .ok (some k))
    (hs : (k.truthy && k.successTruthy) = true)
    (hr : env.roleLookup = none) :
    (activate_key env key).1 = .reply roleNotFoundMsg ∧
    ∀ r, Call.addRoles r ∉ (activate_key env key).2 := by
  obtain ⟨lr, rl, g, sv, uid⟩ := env
  dsimp only at hl hr
  subst hl; subst hr
  exact ⟨by simp [activate_key, hs], fun r => by simp [activate_key, hs]⟩

/-- Witness for C6 at a concrete valid key and failed role lookup. -/
theorem activate_missing_role_config_error_witness :
    (activate_key ⟨.ok (some ⟨some true, none, none, false⟩),
        none, .ok, .ok true, 0⟩ "K2").1 = .reply roleNotFoundMsg :=
  (activate_missing_role_config_error
    ⟨.ok (some ⟨some true, none, none, false⟩), none, .ok, .ok true, 0⟩ "K2"
    ⟨some true, none, none, false⟩ rfl (by decide) rfl).1

/-- C7: when the key validates but the user-info of the response lacks a
usable username (the key is absent, or present with the falsy empty string),
`reset_hwid_with_key` replies with the extraction-error message and never
calls the hardware-id reset operation. -/
theorem reset_with_key_missing_username (env : ResetWithKeyEnv) (key : String)
    (k : KeyDict) (hl : env.licenseResult = .ok (some k))
    (hs : (k.truthy && k.successTruthy) = true)
    (hu : (k.info.getD ⟨none, false⟩).username = none ∨
      (k.info.getD ⟨none, false⟩).username = some "") :
    (reset_hwid_with_key env key).1 = .reply cannotRetrieveMsg ∧
    ∀ u, Call.hwid u ∉ (reset_hwid_with_key env key).2 := by
  obtain ⟨lr, hw⟩ := env
  dsimp only at hl
  subst hl
  rcases hu with hu | hu <;>
    exact ⟨by simp [reset_hwid_with_key, hs, hu],
      fun u => by simp [reset_hwid_with_key, hs, hu]⟩

/-- Witness for C7 at a concrete valid key whose info dict has no username. -/
theorem reset_with_key_missing_username_witness :
    (reset_hwid_with_key
      ⟨.ok (some ⟨some true, none, some ⟨none, false⟩, false⟩), .ok none⟩ "K3").1
      = .reply cannotRetrieveMsg :=
  (reset_with_key_missing_username
    ⟨.ok (some ⟨some true, none, some ⟨none, false⟩, false⟩), .ok none⟩ "K3"
    ⟨some true, none, some ⟨none, false⟩, false⟩ rfl (by decide) (Or.inl rfl)).1

/-- C8: when the grant is attempted and `add_roles` raises `Forbidden`, the
`activate` handler replies with the permission-error message; any other
exception raised there is caught and surfaced as the generic error message
carrying the exception text; and the permission-error message differs from
the generic error message whatever the exception text is. -/
theorem activate_grant_failure_messages (env : ActivateEnv) (key : String)
    (k : KeyDict) (r : Role) (hl : env.licenseResult = .ok (some k))
    (hs : (k.truthy && k.successTruthy) = true)
    (hr : env.roleLookup = some r) :
    (env.grant = .forbidden → (activate_key env key).1 = .reply permissionMsg) ∧
    (∀ e, env.grant = .raised e →
      (activate_key env key).1 = .reply (unexpectedMsg (Exn.text e))) ∧
    (∀ t, permissionMsg ≠ unexpectedMsg t) := by
  obtain ⟨lr, rl, g, sv, uid⟩ := env
  dsimp only at hl hr
  subst hl; subst hr
  refine ⟨?_, ?_, ?_⟩
  · rintro rfl
    simp [activate_key, hs]
  · rintro e rfl
    simp [activate_key, hs]
  · intro t h
    have h1 := congrArg (fun s => s.data.head?) h
    simp only [unexpectedMsg, permissionMsg, String.data_append] at h1
    simp at h1

/-- Witness for C8 at a concrete `Forbidden` grant failure, with the
distinctness instance at the exception text "boom". -/
theorem activate_grant_failure_messages_witness :
    (activate_key ⟨.ok (some ⟨some true, none, none, false⟩),
        some ⟨5, "VIP"⟩, .forbidden, .ok true, 0⟩ "K4").1 = .reply permissionMsg ∧
    permissionMsg ≠ unexpectedMsg "boom" :=
  ⟨(activate_grant_failure_messages
      ⟨.ok (some ⟨some true, none, none, false⟩), some ⟨5, "VIP"⟩, .forbidden, .ok true, 0⟩
      "K4" ⟨some true, none, none, false⟩ ⟨5, "VIP"⟩ rfl (by decide) rfl).1 rfl,
   (activate_grant_failure_messages
      ⟨.ok (some ⟨some true, none, none, false⟩), some ⟨5, "VIP"⟩, .forbidden, .ok true, 0⟩
      "K4" ⟨some true, none, none, false⟩ ⟨5, "VIP"⟩ rfl (by decide) rfl).2.2 "boom"⟩

/-- C9: in `reset_hwid`, a user who does not hold the configured role is
told to activate first; a user who does hold it is always deflected to the
key-based reset command; and on no path does the handler call the
hardware-id reset operation of the licensing API. -/
theorem reset_hwid_role_gate (env : ResetHwidEnv) (r : Role)
    (hr : env.roleLookup = some r) :
    (r ∉ env.userRoles → (reset_hwid env).1 = .reply activateFirstMsg) ∧
    (r ∈ env.userRoles → (reset_hwid env).1 = .reply deflectMsg) ∧
    (∀ u, Call.hwid u ∉ (reset_hwid env).2) := by
  obtain ⟨rl, ur⟩ := env
  dsimp only at hr
  subst hr
  refine ⟨fun h => by simp [reset_hwid, h], fun h => by simp [reset_hwid, h], fun u => ?_⟩
  by_cases h : r ∈ ur <;> simp [reset_hwid, h]

/-- Witness for C9: the same role id with and without membership in the
user's role list. -/
theorem reset_hwid_role_gate_witness :
    (reset_hwid ⟨some ⟨5, "VIP"⟩, []⟩).1 = .reply activateFirstMsg ∧
    (reset_hwid ⟨some ⟨5, "VIP"⟩, [⟨5, "VIP"⟩]⟩).1 = .reply deflectMsg :=
  ⟨(reset_hwid_role_gate ⟨some ⟨5, "VIP"⟩, []⟩ ⟨5, "VIP"⟩ rfl).1 (by decide),
   (reset_hwid_role_gate ⟨some ⟨5, "VIP"⟩, [⟨5, "VIP"⟩]⟩ ⟨5, "VIP"⟩ rfl).2.1 (by decide)⟩

/-- C10: when the configured role id does not resolve in the guild,
`reset_hwid` replies with the activate-first instruction (whatever roles the
user holds, since `None` is never a member of the role-object list), and no
invocation of `reset_hwid` ever produces the configuration-error message. -/
theorem reset_hwid_no_config_error (env : ResetHwidEnv) :
    (env.roleLookup = none → (reset_hwid env).1 = .reply activateFirstMsg) ∧
    (reset_hwid env).1 ≠ .reply roleNotFoundMsg := by
  obtain ⟨rl, ur⟩ := env
  constructor
  · rintro rfl
    simp [reset_hwid]
  · have hcases : (reset_hwid ⟨rl, ur⟩).1 = .reply deflectMsg ∨
        (reset_hwid ⟨rl, ur⟩).1 = .reply activateFirstMsg := by
      cases rl with
      | none => exact Or.inr rfl
      | some r =>
        by_cases h : r ∈ ur
        · exact Or.inl (by simp [reset_hwid, h])
        · exact Or.inr (by simp [reset_hwid, h])
    rcases hcases with h | h <;> rw [h] <;> decide

/-- Witness for C10 at a failed role lookup with a non-empty role list. -/
theorem reset_hwid_no_config_error_witness :
    (reset_hwid ⟨none, [⟨5, "VIP"⟩]⟩).1 = .reply activateFirstMsg ∧
    (reset_hwid ⟨none, [⟨5, "VIP"⟩]⟩).1 ≠ .reply roleNotFoundMsg :=
  ⟨(reset_hwid_no_config_error ⟨none, [⟨5, "VIP"⟩]⟩).1 rfl,
   (reset_hwid_no_config_error ⟨none, [⟨5, "VIP"⟩]⟩).2⟩

/-- C1 counterexample: exceptions do escape the handlers.  A raising
licensing call escapes `activate` uncaught; a raising reset call escapes
`reset_hwid_with_key` uncaught; and a `None` reset response makes
`reset_hwid_with_key` raise an uncaught `AttributeError` instead of
replying. -/
theorem handler_exception_escape_examples :
    (activate_key ⟨.error (.other "connection reset"), none, .ok, .ok true, 0⟩ "KEY-A").1
      = .uncaught (.other "connection reset") ∧
    (reset_hwid_with_key
        ⟨.ok (some ⟨some true, none, some ⟨some "bob", false⟩, false⟩),
          .error (.other "timed out")⟩ "KEY-B").1
      = .uncaught (.other "timed out") ∧
    (reset_hwid_with_key
        ⟨.ok (some ⟨some true, none, some ⟨some "bob", false⟩, false⟩), .ok none⟩ "KEY-B").1
      = .uncaught (.other noneGetAttrErr) := by
  decide

/-- C1 amended: failures reported through return values are all caught and
turned into a user-visible text response.  Whenever the licensing validation
call returns rather than raises, `activate` replies on every path (missing
role, `Forbidden`, any other grant exception, failed username indexing,
raising or returning write-back, invalid or missing response);
`reset_hwid` always replies; and `reset_hwid_with_key` replies whenever the
validation call returns and the reset call, when reached, returns a
dictionary.  A raising licensing call, a raising reset call, and a `None`
reset response escape uncaught instead. -/
theorem handlers_reply_when_license_returns :
    (∀ (env : ActivateEnv) (key : String) (v : Option KeyDict),
      env.licenseResult = .ok v → (activate_key env key).1.isReply = true) ∧
    (∀ env : ResetHwidEnv, (reset_hwid env).1.isReply = true) ∧
    (∀ (env : ResetWithKeyEnv) (key : String) (v : Option KeyDict) (d : ResetDict),
      env.licenseResult = .ok v → env.hwidResult = .ok (some d) →
      (reset_hwid_with_key env key).1.isReply = true) := by
  refine ⟨?_, ?_, ?_⟩
  · intro env key v h
    obtain ⟨lr, rl, g, sv, uid⟩ := env
    dsimp only at h
    subst h
    cases v with
    | none => rfl
    | some k =>
      cases hc : k.truthy && k.successTruthy with
      | false => simp [activate_key, hc, Outcome.isReply]
      | true =>
        cases rl with
        | none => simp [activate_key, hc, Outcome.isReply]
        | some role =>
          cases g with
          | forbidden => simp [activate_key, hc, Outcome.isReply]
          | raised e => simp [activate_key, hc, Outcome.isReply]
          | ok =>
            cases hiu : indexUsername k with
            | error e => simp [activate_key, hc, hiu, Outcome.isReply]
            | ok u =>
              cases sv with
              | error e => simp [activate_key, hc, hiu, Outcome.isReply]
              | ok b => simp [activate_key, hc, hiu, Outcome.isReply]
  · intro env
    obtain ⟨rl, ur⟩ := env
    cases rl with
    | none => rfl
    | some r => by_cases h : r ∈ ur <;> simp [reset_hwid, h, Outcome.isReply]
  · intro env key v d h1 h2
    obtain ⟨lr, hw⟩ := env
    dsimp only at h1 h2
    subst h1; subst h2
    cases v with
    | none => rfl
    | some k =>
      cases hc : k.truthy && k.successTruthy with
      | false => simp [reset_hwid_with_key, hc, Outcome.isReply]
      | true =>
        cases hu : (k.info.getD ⟨none, false⟩).username with
        | none => simp [reset_hwid_with_key, hc, hu, Outcome.isReply]
        | some u =>
          by_cases he : u = ""
          · simp [reset_hwid_with_key, hc, hu, he, Outcome.isReply]
          · cases hd : d.truthy && d.successTruthy with
            | true => simp [reset_hwid_with_key, hc, hu, he, hd, Outcome.isReply]
            | false => simp [reset_hwid_with_key, hc, hu, he, hd, Outcome.isReply]

/-- Witness for the amended C1: each conjunct applied at a concrete
environment whose external calls all return. -/
theorem handlers_reply_when_license_returns_witness :
    (activate_key ⟨.ok none, none, .ok, .ok true, 0⟩ "K6").1.isReply = true ∧
    (reset_hwid ⟨none, []⟩).1.isReply = true ∧
    (reset_hwid_with_key ⟨.ok none, .ok (some ⟨some true, none, false⟩)⟩ "K6").1.isReply
      = true :=
  ⟨handlers_reply_when_license_returns.1 ⟨.ok none, none, .ok, .ok true, 0⟩ "K6" none rfl,
   handlers_reply_when_license_returns.2.1 ⟨none, []⟩,
   handlers_reply_when_license_returns.2.2 ⟨.ok none, .ok (some ⟨some true, none, false⟩)⟩
     "K6" none ⟨some true, none, false⟩ rfl rfl⟩

/-- C3 counterexample: with a valid key, a resolved role, a successful
grant, and a write-back call that raises, the handler replies with the
generic error message rather than the success message, so a failing
write-back can change the outcome. -/
theorem activate_setvar_raise_changes_outcome :
    (activate_key ⟨.ok (some ⟨some true, none, some ⟨some "alice", false⟩, false⟩),
        some ⟨1, "Premium"⟩, .ok, .error (.other "setvar failed"), 42⟩ "KEY-C").1
      = .reply (unexpectedMsg "setvar failed") ∧
    (activate_key ⟨.ok (some ⟨some true, none, some ⟨some "alice", false⟩, false⟩),
        some ⟨1, "Premium"⟩, .ok, .error (.other "setvar failed"), 42⟩ "KEY-C").1
      ≠ .reply (activateSuccessMsg "Premium") := by
  decide

/-- C3 amended: after a successful grant the handler calls the write-back
with the licensing username, the variable name "discordid" and the string of
the invoking user id, and its returned value is never checked: whatever
value the write-back returns, the handler replies with the success message
naming the granted role.  A write-back that raises is caught, but yields the
generic error message instead of the success message. -/
theorem activate_writeback_best_effort (env : ActivateEnv) (key : String)
    (k : KeyDict) (r : Role) (u : String)
    (hl : env.licenseResult = .ok (some k))
    (hs : (k.truthy && k.successTruthy) = true)
    (hr : env.roleLookup = some r) (hg : env.grant = .ok)
    (hu : indexUsername k = .ok u) :
    (∀ v, env.setvarResult = .ok v →
      (activate_key env key).1 = .reply (activateSuccessMsg r.name) ∧
      Call.setvar u "discordid" (toString env.userId) ∈ (activate_key env key).2) ∧
    (∀ e, env.setvarResult = .error e →
      (activate_key env key).1 = .reply (unexpectedMsg (Exn.text e))) := by
  obtain ⟨lr, rl, g, sv, uid⟩ := env
  dsimp only at hl hr hg ⊢
  subst hl; subst hr; subst hg
  constructor
  · rintro v rfl
    exact ⟨by simp [activate_key, hs, hu], by simp [activate_key, hs, hu]⟩
  · rintro e rfl
    simp [activate_key, hs, hu]

/-- Witness for the amended C3 at a write-back returning a falsy value: the
success reply and the recorded write-back call are unchanged. -/
theorem activate_writeback_best_effort_witness :
    (activate_key ⟨.ok (some ⟨some true, none, some ⟨some "alice", false⟩, false⟩),
        some ⟨7, "Member"⟩, .ok, .ok false, 42⟩ "K7").1
      = .reply (activateSuccessMsg "Member") ∧
    Call.setvar "alice" "discordid" (toString (42 : Int)) ∈
      (activate_key ⟨.ok (some ⟨some true, none, some ⟨some "alice", false⟩, false⟩),
        some ⟨7, "Member"⟩, .ok, .ok false, 42⟩ "K7").2 :=
  (activate_writeback_best_effort
    ⟨.ok (some ⟨some true, none, some ⟨some "alice", false⟩, false⟩),
      some ⟨7, "Member"⟩, .ok, .ok false, 42⟩ "K7"
    ⟨some true, none, some ⟨some "alice", false⟩, false⟩ ⟨7, "Member"⟩ "alice"
    rfl (by decide) rfl rfl rfl).1 false rfl

end KeyauthBot
